import Mathlib

set_option maxRecDepth 10000

/-!
Verification of the highlight-ez rendering pipeline.

The Rust sources under src/ are shallowly embedded here:
  - src/error.rs         → `HtmlRenderingError`
  - src/target_language.rs → `TargetLanguage` and its registry methods
  - src/lib.rs           → `string_html`, `render_html_core`, `generate_parser_core`,
                           `check_for_parser_core`
External collaborators (tree-sitter loader, theme/config loader, tokenizer,
git client, compiler toolchain) are modelled at their interface through an
environment record `Env` describing the results they return to the pipeline.
-/

/-- Equality on `Except` values is decidable when it is on both components;
needed to evaluate the embedded fallible functions on concrete inputs. -/
def except_eq_dec {ε α : Type} [DecidableEq ε] [DecidableEq α] :
    (a b : Except ε α) → Decidable (a = b)
  | .error e, .error f => decidable_of_iff (e = f) (by simp)
  | .ok x, .ok y => decidable_of_iff (x = y) (by simp)
  | .error _, .ok _ => isFalse (by simp)
  | .ok _, .error _ => isFalse (by simp)

instance {ε α : Type} [DecidableEq ε] [DecidableEq α] : DecidableEq (Except ε α) :=
  except_eq_dec

/-- Error type of the highlighting crate, from src/error.rs.  The spec refers
to `SharedLibDoesntExist` as `SharedLibUnavailable` and to
`LanguageParserNotImplemented` as `LanguageNotSupported`. -/
inductive HtmlRenderingError where
  | SharedLibDoesntExist
  | LanguageParserNotImplemented
  deriving DecidableEq, Repr

/-- List of target-able languages for highlighting, from src/target_language.rs.
The Rust enum is non_exhaustive (closed but extensible). -/
inductive TargetLanguage where
  | Rust
  | Python
  | Json
  | Yaml
  | Toml
  | Html
  | Javascript
  | Shell
  deriving DecidableEq, Repr

/-- `TargetLanguage::extension` from src/target_language.rs: the file extension
associated with the language.  Note that the source maps `Javascript` to
`".rs"`, the same string as `Rust`. -/
def TargetLanguage.extension : TargetLanguage → Option String
  | .Rust => some ".rs"
  | .Yaml => some ".yml"
  | .Python => some ".py"
  | .Json => some ".json"
  | .Javascript => some ".rs"
  | .Shell => some ".sh"
  | .Html => some ".html"
  | .Toml => some ".toml"

/-- `TargetLanguage::soname` from src/target_language.rs: the name of the
dynamic library associated with the language. -/
def TargetLanguage.soname : TargetLanguage → Option String
  | .Rust => some "rust.so"
  | .Yaml => some "yaml.so"
  | .Python => some "python.so"
  | .Json => some "json.so"
  | .Javascript => some "javascript.so"
  | .Shell => some "shell.so"
  | .Html => some "html.so"
  | .Toml => some "toml.so"

/-- `TargetLanguage::git_repo` from src/target_language.rs: the git repository
holding the grammar for the language.  Every variant returns `some`. -/
def TargetLanguage.git_repo : TargetLanguage → Option String
  | .Rust => some "https://github.com/tree-sitter/tree-sitter-rust.git"
  | .Yaml => some "https://github.com/tree-sitter-grammars/tree-sitter-yaml.git"
  | .Python => some "https://github.com/tree-sitter/tree-sitter-python.git"
  | .Json => some "https://github.com/tree-sitter/tree-sitter-json.git"
  | .Javascript => some "https://github.com/tree-sitter/tree-sitter-javascript.git"
  | .Shell => some "https://github.com/tree-sitter/tree-sitter-bash.git"
  | .Html => some "https://github.com/tree-sitter/tree-sitter-html.git"
  | .Toml => some "https://github.com/ikatyang/tree-sitter-toml.git"

/-- Model of Rust `str::to_lowercase` for the alias strings handled by the
registry.  All recognized aliases are ASCII, and `Char.toLower` lowercases
exactly the ASCII uppercase letters, matching `to_lowercase` on that range. -/
def to_lowercase (s : String) : String :=
  String.mk (s.data.map Char.toLower)

/-- The match over the lowercased query inside `FromStr::from_str`
(src/target_language.rs), one branch per source match arm, in source order. -/
def from_str_impl (query : String) : Except HtmlRenderingError TargetLanguage :=
  if query = "rust" then .ok .Rust
  else if query = "rs" then .ok .Rust
  else if query = ".rs" then .ok .Rust
  else if query = "python" then .ok .Python
  else if query = "py" then .ok .Python
  else if query = ".py" then .ok .Python
  else if query = "json" then .ok .Json
  else if query = ".json" then .ok .Json
  else if query = "yaml" then .ok .Yaml
  else if query = ".yaml" then .ok .Yaml
  else if query = ".yml" then .ok .Yaml
  else if query = "yml" then .ok .Yaml
  else if query = "toml" then .ok .Toml
  else if query = ".toml" then .ok .Toml
  else if query = "html" then .ok .Html
  else if query = ".html" then .ok .Html
  else if query = "javascript" then .ok .Javascript
  else if query = "js" then .ok .Javascript
  else if query = ".js" then .ok .Javascript
  else if query = "shell" then .ok .Shell
  else if query = "sh" then .ok .Shell
  else if query = ".sh" then .ok .Shell
  else if query = "zsh" then .ok .Shell
  else if query = "bash" then .ok .Shell
  else .error .LanguageParserNotImplemented

/-- `FromStr::from_str` for `TargetLanguage` (src/target_language.rs): lowercase
the query, then match it against the recognized aliases. -/
def from_str (s : String) : Except HtmlRenderingError TargetLanguage :=
  from_str_impl (to_lowercase s)

/-- `TargetLanguage::parse_or_default` from src/target_language.rs: parse the
query, returning the caller-supplied default when parsing fails. -/
def TargetLanguage.parse_or_default (query : String) (dflt : TargetLanguage) : TargetLanguage :=
  match from_str query with
  | .ok lang => lang
  | .error _ => dflt

/-- The canonical lowercase name of each registry tag (the lowercase spelling
of the enum variant name, each of which is a recognized alias). -/
def canonical_name : TargetLanguage → String
  | .Rust => "rust"
  | .Python => "python"
  | .Json => "json"
  | .Yaml => "yaml"
  | .Toml => "toml"
  | .Html => "html"
  | .Javascript => "javascript"
  | .Shell => "shell"

/-- The alias table of `from_str` (src/target_language.rs): exactly the match
arms that return `Ok`, in source order. -/
def aliases : List (String × TargetLanguage) :=
  [("rust", .Rust), ("rs", .Rust), (".rs", .Rust),
   ("python", .Python), ("py", .Python), (".py", .Python),
   ("json", .Json), (".json", .Json),
   ("yaml", .Yaml), (".yaml", .Yaml), (".yml", .Yaml), ("yml", .Yaml),
   ("toml", .Toml), (".toml", .Toml),
   ("html", .Html), (".html", .Html),
   ("javascript", .Javascript), ("js", .Javascript), (".js", .Javascript),
   ("shell", .Shell), ("sh", .Shell), (".sh", .Shell),
   ("zsh", .Shell), ("bash", .Shell)]

/-- Claim C2, counterexample: the claim asserts that at least one language
identifier has no grammar repository URL, but `TargetLanguage::git_repo`
returns `some` for every one of the eight variants. -/
theorem C2_counterexample :
    ¬ ∃ lang : TargetLanguage, TargetLanguage.git_repo lang = none := by
  rintro ⟨lang, h⟩
  cases lang <;> simp [TargetLanguage.git_repo] at h

/-- Claim C2, amended: every language identifier in the registry has a
non-empty canonical extension, and every one (not merely some) also has a
grammar repository URL, so no tag signals "not implemented" via `git_repo`. -/
theorem C2_theorem (lang : TargetLanguage) :
    (∃ e, TargetLanguage.extension lang = some e ∧ e ≠ "")
    ∧ (TargetLanguage.git_repo lang).isSome = true := by
  cases lang <;> exact ⟨⟨_, rfl, by decide⟩, rfl⟩

/-- Claim C6: for every alias string the parser does not recognize and every
caller-supplied default, `parse_or_default` returns the default.  It is a total
Lean function, so it never errors or panics. -/
theorem C6_theorem (query : String) (dflt : TargetLanguage) (err : HtmlRenderingError)
    (h : from_str query = .error err) :
    TargetLanguage.parse_or_default query dflt = dflt := by
  simp [TargetLanguage.parse_or_default, h]

/-- Witness for C6 at the unrecognized query "klingon" with default Rust. -/
theorem C6_witness :
    from_str "klingon" = .error .LanguageParserNotImplemented
    ∧ TargetLanguage.parse_or_default "klingon" .Rust = .Rust :=
  ⟨by decide, C6_theorem "klingon" .Rust .LanguageParserNotImplemented (by decide)⟩

/-- Claim C7, counterexample: "zsh" is a recognized alias parsing to `Shell`
(as does the canonical name "shell"), but its leading-dot form ".zsh" is not
recognized at all, so a recognized alias with a leading dot added need not
parse to the same canonical identifier. -/
theorem C7_counterexample :
    from_str "zsh" = .ok .Shell
    ∧ from_str "shell" = .ok .Shell
    ∧ from_str ".zsh" = .error .LanguageParserNotImplemented := by
  decide

/-- Claim C7, amended: every recognized alias, in any letter case (any string
whose lowercasing equals the alias), parses to the same canonical identifier
as the language's canonical lowercase name; dotted spellings are recognized
only where they are themselves listed aliases, not for every alias. -/
theorem C7_theorem (s a : String) (lang : TargetLanguage)
    (hmem : (a, lang) ∈ aliases) (hcase : to_lowercase s = a) :
    from_str s = .ok lang ∧ from_str (canonical_name lang) = .ok lang := by
  refine ⟨?_, ?_⟩
  · show from_str_impl (to_lowercase s) = .ok lang
    rw [hcase]
    fin_cases hmem <;> decide
  · fin_cases hmem <;> decide

/-- Witness for C7 at the mixed-case alias "RS", which lowercases to the
recognized alias "rs" and parses to `Rust`, as does "rust". -/
theorem C7_witness :
    from_str "RS" = .ok TargetLanguage.Rust
    ∧ from_str (canonical_name TargetLanguage.Rust) = .ok TargetLanguage.Rust :=
  C7_theorem "RS" "rs" TargetLanguage.Rust (by decide) (by decide)

/-- One data row of the rendered table: `string_html` (src/lib.rs) writes, for
the i-th renderer output line, the line number `i + 1` and the line content. -/
structure Row where
  lineNumber : Nat
  content : String
  deriving DecidableEq, Repr

/-- The enumeration loop of `string_html` (src/lib.rs): pair each renderer
output line with its 1-based line number, in order. -/
def render_rows (lines : List String) : List Row :=
  (List.enum lines).map (fun p => Row.mk (p.fst + 1) p.snd)

/-- The formatted `<tr>` written by `string_html` (src/lib.rs) for one row,
newline-terminated as by `writeln!`. -/
def row_html (r : Row) : String :=
  "<tr><td class=line-number>" ++ toString r.lineNumber ++ "</td><td class=line>"
    ++ r.content ++ "</td></tr>\n"

/-- Line numbers produced by the enumeration loop, generalized over the
starting index of `enumFrom`. -/
theorem rows_aux (k : Nat) (lines : List String) :
    ((List.enumFrom k lines).map (fun p => Row.mk (p.fst + 1) p.snd)).map Row.lineNumber
      = List.range' (k + 1) lines.length
    ∧ ((List.enumFrom k lines).map (fun p => Row.mk (p.fst + 1) p.snd)).map Row.content
      = lines := by
  induction lines generalizing k with
  | nil => exact ⟨rfl, rfl⟩
  | cons a l ih =>
      refine ⟨?_, ?_⟩
      · simpa [List.enumFrom, List.range'] using (ih (k + 1)).1
      · simpa [List.enumFrom] using (ih (k + 1)).2

/-- Claim C4: the renderer loop emits exactly one row per renderer output line,
the line-number cells are exactly 1..N in order (1-based, increasing by exactly
1 per row), and the contents are the lines themselves, so no line is skipped or
merged. -/
theorem C4_theorem (lines : List String) :
    (render_rows lines).length = lines.length
    ∧ (render_rows lines).map Row.lineNumber = List.range' 1 lines.length
    ∧ (render_rows lines).map Row.content = lines := by
  refine ⟨by simp [render_rows], ?_, ?_⟩
  · exact (rows_aux 0 lines).1
  · exact (rows_aux 0 lines).2

/-- Typed errors flowing out of the pipeline (`anyhow::Result` in src/lib.rs):
either one of the crate's own errors, or an error propagated unchanged from an
external collaborator, tagged with the step that produced it. -/
inductive RenderError where
  | rendering (e : HtmlRenderingError)
  | external (step : String)
  deriving DecidableEq, Repr

/-- The registry data of one language identifier, as consulted by the pipeline
in src/lib.rs: `lang.extension()`, `lang.soname()` and `lang.git_repo()`.  The
Rust enum is non_exhaustive, so the pipeline is embedded over this record and
instantiated with `TargetLanguage.info` for the current variants. -/
structure LangInfo where
  ext : Option String
  soname : Option String
  git_repo : Option String
  deriving DecidableEq, Repr

/-- The registry record of an actual `TargetLanguage` variant. -/
def TargetLanguage.info (lang : TargetLanguage) : LangInfo :=
  ⟨lang.extension, lang.soname, lang.git_repo⟩

/-- Results returned by the external collaborators during one call, modelled at
their interfaces (spec sections 1 and 6): home/current directory resolution,
the filesystem seen and written by the provisioner, the git clone, the
generation toolchain, the loader, the compiler, the grammar lookup, and the
tokenizer/renderer (whose styled output lines are a function of the source). -/
structure Env where
  homeDir : Option (List String)
  currentDir : Option (List String)
  fs : List (List String)
  cloneOk : Bool
  generateOk : Bool
  languagesOk : Bool
  compileOk : Bool
  langConfig : Except Unit (Option Unit)
  highlightOk : Bool
  renderOk : Bool
  rendererLines : String → List String

/-- Replace the filesystem component of an environment (used to run the cache
prober on the filesystem left behind by the provisioner). -/
def set_fs (env : Env) (fs : List (List String)) : Env :=
  ⟨env.homeDir, env.currentDir, fs, env.cloneOk, env.generateOk, env.languagesOk,
    env.compileOk, env.langConfig, env.highlightOk, env.renderOk, env.rendererLines⟩

/-- Externally observable steps of `render_html` (src/lib.rs), in program
order: the cache probe, the provisioning attempt, the loader construction, the
config load, the theme load, `configure_highlights`, `find_all_languages`, the
grammar lookup by file extension, and the tokenizer run. -/
inductive Event where
  | probe
  | provision
  | loaderNew
  | configLoad
  | themeLoad
  | configureHighlights
  | findAllLanguages
  | langConfigFor (ext : String)
  | highlightRun
  deriving DecidableEq, Repr

/-- `home.join(".cache").join("tree-sitter").join("lib").join(soname)`: the
cache path of the compiled artifact, as computed both by `check_for_parser`
and by `generate_parser` in src/lib.rs. -/
def sopath_of (home : List String) (so : String) : List String :=
  home ++ [".cache", "tree-sitter", "lib", so]

/-- `Path::file_name` of the repository URL (src/lib.rs `generate_parser`):
the segment after the last `/`. -/
def file_name_of (url : String) : String :=
  String.mk ((url.data.reverse.takeWhile (fun c => c ≠ '/')).reverse)

/-- `repo_name.split(".").next()` (src/lib.rs `generate_parser`): the part of
the file name before its first `.`. -/
def before_first_dot (s : String) : String :=
  String.mk (s.data.takeWhile (fun c => c ≠ '.'))

/-- The local clone directory name derived from the repository URL in
`generate_parser` (src/lib.rs): last path segment, stripped at its first dot. -/
def repo_name_of (url : String) : String :=
  before_first_dot (file_name_of url)

/-- `home/.cache/tree-sitter/parsers/<repo-name>`: the clone path computed by
`generate_parser` (src/lib.rs). -/
def repo_path_of (home : List String) (git_url : String) : List String :=
  home ++ [".cache", "tree-sitter", "parsers", repo_name_of git_url]

/-- The clone-or-skip step of `generate_parser` (src/lib.rs): if the clone
directory already exists it is reused, otherwise the git client clones into it
(its failure propagating as an external error). -/
def clone_step (env : Env) (repo_path : List String) :
    Except RenderError (List (List String)) :=
  if repo_path ∈ env.fs then .ok env.fs
  else if env.cloneOk then .ok (repo_path :: env.fs)
  else .error (.external "clone")

/-- The tail of `generate_parser` (src/lib.rs): run the generation toolchain,
re-resolve a loader at the current directory, then compile the parser to the
artifact path; each step's failure propagates, success writes the artifact. -/
def build_steps (env : Env) (sopath : List String) (fs1 : List (List String)) :
    Except RenderError Unit × List (List String) :=
  if env.generateOk then
    if env.languagesOk then
      if env.compileOk then (.ok (), sopath :: fs1)
      else (.error (.external "compile"), fs1)
    else (.error (.external "languages_at_path"), fs1)
  else (.error (.external "generate"), fs1)

/-- `generate_parser` (src/lib.rs) after the soname resolved: clone-or-skip,
then generate, loader re-resolution and compile (`build_steps`). -/
def gp_after_soname (env : Env) (home : List String) (git_url so : String) :
    Except RenderError Unit × List (List String) :=
  match clone_step env (repo_path_of home git_url) with
  | .error e => (.error e, env.fs)
  | .ok fs1 => build_steps env (sopath_of home so) fs1

/-- `generate_parser` (src/lib.rs) after the repository URL resolved: resolve
`soname()`, erring `SharedLibDoesntExist` when it is none. -/
def gp_after_repo (info : LangInfo) (env : Env) (home : List String) (git_url : String) :
    Except RenderError Unit × List (List String) :=
  match info.soname with
  | none => (.error (.rendering .SharedLibDoesntExist), env.fs)
  | some so => gp_after_soname env home git_url so

/-- `generate_parser` (src/lib.rs) after the home directory resolved: resolve
`git_repo()`, erring `LanguageParserNotImplemented` when it is none. -/
def gp_after_home (info : LangInfo) (env : Env) (home : List String) :
    Except RenderError Unit × List (List String) :=
  match info.git_repo with
  | none => (.error (.rendering .LanguageParserNotImplemented), env.fs)
  | some git_url => gp_after_repo info env home git_url

/-- `generate_parser` (src/lib.rs) after the current directory resolved:
resolve the home directory, erring `SharedLibDoesntExist` when unresolvable. -/
def gp_after_cd (info : LangInfo) (env : Env) :
    Except RenderError Unit × List (List String) :=
  match env.homeDir with
  | none => (.error (.rendering .SharedLibDoesntExist), env.fs)
  | some home => gp_after_home info env home

/-- `generate_parser` from src/lib.rs, embedded over the registry record and
the external environment; returns the result together with the filesystem
after the call.  Source order: current dir, home dir, `git_repo()` (erring
`LanguageParserNotImplemented` when none), `soname()` (erring
`SharedLibDoesntExist` when none), clone-or-skip, generate, loader, compile. -/
def generate_parser_core (info : LangInfo) (env : Env) :
    Except RenderError Unit × List (List String) :=
  match env.currentDir with
  | none => (.error (.external "current_dir"), env.fs)
  | some _ => gp_after_cd info env

/-- `generate_parser` applied to an actual language variant. -/
def generateParser (env : Env) (lang : TargetLanguage) :
    Except RenderError Unit × List (List String) :=
  generate_parser_core lang.info env

/-- `check_for_parser` from src/lib.rs: resolve home (erring
`SharedLibDoesntExist` when unresolvable), resolve `soname()` (same error when
none), and report whether the artifact file exists at the cache path. -/
def check_for_parser_core (so : Option String) (env : Env) : Except RenderError Unit :=
  match env.homeDir with
  | none => .error (.rendering .SharedLibDoesntExist)
  | some home =>
    match so with
    | none => .error (.rendering .SharedLibDoesntExist)
    | some soname =>
      if sopath_of home soname ∈ env.fs then .ok ()
      else .error (.rendering .SharedLibDoesntExist)

/-- `check_for_parser` applied to an actual language variant. -/
def checkForParser (env : Env) (lang : TargetLanguage) : Except RenderError Unit :=
  check_for_parser_core lang.info.soname env

/-- `string_html` from src/lib.rs: run the tokenizer (failure propagating),
run the HTML renderer (failure propagating), then write `<table>`, one
formatted `<tr>` per renderer output line, and `</table>`, each line written
with `writeln!` and hence newline-terminated. -/
def string_html (env : Env) (source : String) : Except RenderError String :=
  if env.highlightOk then
    if env.renderOk then
      .ok ("<table>\n" ++ String.join ((render_rows (env.rendererLines source)).map row_html)
        ++ "</table>\n")
    else .error (.external "render")
  else .error (.external "highlight")

/-- The loader work performed unconditionally by `render_html` (src/lib.rs)
after the probe/provision phase and before the extension is consulted:
`Loader::new`, `Config::load`, theme retrieval, `configure_highlights`,
`find_all_languages`. -/
def loader_events : List Event :=
  [Event.loaderNew, Event.configLoad, Event.themeLoad, Event.configureHighlights,
    Event.findAllLanguages]

/-- The part of `render_html` (src/lib.rs) after the probe/provision phase:
do the loader work, consult `lang.extension()` (erring
`LanguageParserNotImplemented` when none), look up the grammar configuration
by that extension (an external lookup whose failure propagates and whose
"no grammar matches" outcome yields `Ok("")`), then render via `string_html`. -/
def render_pipeline (info : LangInfo) (env : Env) (source : String) :
    Except RenderError String × List Event :=
  match info.ext with
  | none => (.error (.rendering .LanguageParserNotImplemented), loader_events)
  | some e =>
    match env.langConfig with
    | .error _ => (.error (.external "language_configuration_for_file_name"),
        loader_events ++ [Event.langConfigFor e])
    | .ok none => (.ok "", loader_events ++ [Event.langConfigFor e])
    | .ok (some _) =>
      (string_html env source, loader_events ++ [Event.langConfigFor e, Event.highlightRun])

/-- `render_html` from src/lib.rs, embedded over the registry record: probe
the cache; on probe failure make exactly one provisioning attempt, returning
its error immediately on failure; then run the rest of the pipeline.  The
second component is the trace of externally observable steps. -/
def render_html_core (info : LangInfo) (env : Env) (code_block : String) :
    Except RenderError String × List Event :=
  match check_for_parser_core info.soname env with
  | .ok _ =>
    let p := render_pipeline info env code_block
    (p.fst, Event.probe :: p.snd)
  | .error _ =>
    match (generate_parser_core info env).fst with
    | .error e => (.error e, [Event.probe, Event.provision])
    | .ok _ =>
      let p := render_pipeline info env code_block
      (p.fst, Event.probe :: Event.provision :: p.snd)

/-- `render_html` applied to an actual language variant. -/
def render_html (env : Env) (code_block : String) (lang : TargetLanguage) :
    Except RenderError String × List Event :=
  render_html_core lang.info env code_block

/-- Number of provisioning attempts recorded in a trace. -/
def count_provision : List Event → Nat
  | [] => 0
  | e :: tr => (if e = Event.provision then 1 else 0) + count_provision tr

/-- An environment in which every external collaborator succeeds, the artifact
cache starts empty, and the renderer emits no lines. -/
def env_all_ok : Env :=
  ⟨some ["home"], some ["cwd"], [], true, true, true, true, .ok (some ()), true, true,
    fun _ => []⟩

/-- A warm-cache environment: the compiled Python artifact is already present
and every external collaborator succeeds; the renderer emits no lines. -/
def env_warm : Env :=
  ⟨some ["home"], some ["cwd"], [["home", ".cache", "tree-sitter", "lib", "python.so"]],
    true, true, true, true, .ok (some ()), true, true, fun _ => []⟩

/-- An environment whose home directory cannot be resolved, so both the cache
probe and the provisioning attempt fail. -/
def env_cold : Env :=
  ⟨none, some ["cwd"], [], true, true, true, true, .ok (some ()), true, true, fun _ => []⟩

/-- A hypothetical registry record whose extension query returns none (the
Rust enum is non_exhaustive, so the spec's "capability not implemented"
extension case is expressible even though no current variant inhabits it). -/
def c1_info : LangInfo :=
  ⟨none, some "x.so", some "https://example.com/tree-sitter-x.git"⟩

/-- If the build tail of the provisioner succeeds, it wrote the artifact path
into the filesystem. -/
theorem build_steps_ok (env : Env) (sp : List String) (fs1 : List (List String))
    (h : (build_steps env sp fs1).fst = .ok ()) :
    build_steps env sp fs1 = (.ok (), sp :: fs1) := by
  unfold build_steps at h ⊢
  cases hg : env.generateOk <;> cases hl : env.languagesOk <;> cases hc : env.compileOk <;>
    simp_all

/-- After a successful clone-generate-compile tail, the artifact path is in
the resulting filesystem. -/
theorem gp_after_soname_ok (env : Env) (home : List String) (git_url so : String)
    (h : (gp_after_soname env home git_url so).fst = Except.ok ()) :
    sopath_of home so ∈ (gp_after_soname env home git_url so).snd := by
  rcases hcs : clone_step env (repo_path_of home git_url) with e | fs1
  · have he : gp_after_soname env home git_url so = (.error e, env.fs) := by
      simp [gp_after_soname, hcs]
    rw [he] at h
    simp at h
  · have he : gp_after_soname env home git_url so = build_steps env (sopath_of home so) fs1 := by
      simp [gp_after_soname, hcs]
    rw [he] at h ⊢
    rw [build_steps_ok env _ fs1 h]
    exact List.mem_cons_self _ _

/-- Success of the provisioner past the URL step resolved a soname and wrote
the artifact. -/
theorem gp_after_repo_ok (info : LangInfo) (env : Env) (home : List String) (git_url : String)
    (h : (gp_after_repo info env home git_url).fst = Except.ok ()) :
    ∃ so, info.soname = some so
      ∧ sopath_of home so ∈ (gp_after_repo info env home git_url).snd := by
  rcases hso : info.soname with _ | so
  · have he : gp_after_repo info env home git_url
        = (.error (.rendering .SharedLibDoesntExist), env.fs) := by
      simp [gp_after_repo, hso]
    rw [he] at h
    simp at h
  · have he : gp_after_repo info env home git_url = gp_after_soname env home git_url so := by
      simp [gp_after_repo, hso]
    rw [he] at h ⊢
    exact ⟨so, rfl, gp_after_soname_ok env home git_url so h⟩

/-- Success of the provisioner past the home step resolved a soname and wrote
the artifact. -/
theorem gp_after_home_ok (info : LangInfo) (env : Env) (home : List String)
    (h : (gp_after_home info env home).fst = Except.ok ()) :
    ∃ so, info.soname = some so ∧ sopath_of home so ∈ (gp_after_home info env home).snd := by
  rcases hgit : info.git_repo with _ | git_url
  · have he : gp_after_home info env home
        = (.error (.rendering .LanguageParserNotImplemented), env.fs) := by
      simp [gp_after_home, hgit]
    rw [he] at h
    simp at h
  · have he : gp_after_home info env home = gp_after_repo info env home git_url := by
      simp [gp_after_home, hgit]
    rw [he] at h ⊢
    exact gp_after_repo_ok info env home git_url h

/-- A successful provisioning run resolved the home directory and the artifact
name, and left the artifact at the cache path in the resulting filesystem. -/
theorem generate_ok_core (info : LangInfo) (env : Env)
    (h : (generate_parser_core info env).fst = Except.ok ()) :
    ∃ home so, env.homeDir = some home ∧ info.soname = some so
      ∧ sopath_of home so ∈ (generate_parser_core info env).snd := by
  rcases hcd : env.currentDir with _ | cd
  · have he : generate_parser_core info env = (.error (.external "current_dir"), env.fs) := by
      simp [generate_parser_core, hcd]
    rw [he] at h
    simp at h
  · have he : generate_parser_core info env = gp_after_cd info env := by
      simp [generate_parser_core, hcd]
    rw [he] at h ⊢
    rcases hhd : env.homeDir with _ | home
    · have he2 : gp_after_cd info env
          = (.error (.rendering .SharedLibDoesntExist), env.fs) := by
        simp [gp_after_cd, hhd]
      rw [he2] at h
      simp at h
    · have he2 : gp_after_cd info env = gp_after_home info env home := by
        simp [gp_after_cd, hhd]
      rw [he2] at h ⊢
      obtain ⟨so, hso, hm⟩ := gp_after_home_ok info env home h
      exact ⟨home, so, rfl, hso, hm⟩

/-- The cache probe succeeds whenever the home directory resolves and the
artifact path is present in the filesystem. -/
theorem check_of_mem (env : Env) (home : List String) (so : String)
    (hh : env.homeDir = some home) (hm : sopath_of home so ∈ env.fs) :
    check_for_parser_core (some so) env = .ok () := by
  simp [check_for_parser_core, hh, hm]

/-- Claim C8: after a successful `generate_parser` run, the compiled artifact
exists at exactly the path `check_for_parser` probes
(home/.cache/tree-sitter/lib/soname), so re-probing on the resulting
filesystem succeeds. -/
theorem C8_theorem (lang : TargetLanguage) (env : Env)
    (h : (generateParser env lang).fst = .ok ()) :
    ∃ home so, env.homeDir = some home ∧ lang.info.soname = some so
      ∧ sopath_of home so ∈ (generateParser env lang).snd
      ∧ checkForParser (set_fs env (generateParser env lang).snd) lang = .ok () := by
  obtain ⟨home, so, hh, hs, hm⟩ := generate_ok_core lang.info env h
  refine ⟨home, so, hh, hs, hm, ?_⟩
  unfold checkForParser
  rw [hs]
  exact check_of_mem _ home so (by simpa [set_fs] using hh) (by simpa [set_fs] using hm)

/-- Witness for C8: with an empty cache and all collaborators succeeding,
provisioning Rust succeeds and the subsequent probe finds the artifact. -/
theorem C8_witness :
    (generateParser env_all_ok .Rust).fst = Except.ok ()
    ∧ ∃ home so, env_all_ok.homeDir = some home
      ∧ (TargetLanguage.info .Rust).soname = some so
      ∧ sopath_of home so ∈ (generateParser env_all_ok .Rust).snd
      ∧ checkForParser (set_fs env_all_ok (generateParser env_all_ok .Rust).snd) .Rust
          = .ok () :=
  ⟨by decide, C8_theorem .Rust env_all_ok (by decide)⟩

/-- When the extension is defined, the rest of the pipeline records the
grammar lookup keyed by exactly that extension, after the loader work. -/
theorem pipeline_trace_shape (info : LangInfo) (env : Env) (code e : String)
    (he : info.ext = some e) :
    (render_pipeline info env code).snd = loader_events ++ [Event.langConfigFor e]
    ∨ (render_pipeline info env code).snd
        = loader_events ++ [Event.langConfigFor e, Event.highlightRun] := by
  unfold render_pipeline
  rw [he]
  rcases hlc : env.langConfig with u | ou
  · left
    simp [hlc]
  · rcases ou with _ | u <;> simp [hlc]

/-- When the extension is undefined, the rest of the pipeline fails with
`LanguageParserNotImplemented`, with the loader work already performed. -/
theorem pipeline_none (info : LangInfo) (env : Env) (code : String)
    (he : info.ext = none) :
    render_pipeline info env code
      = (.error (.rendering .LanguageParserNotImplemented), loader_events) := by
  simp [render_pipeline, he]

/-- After a successful probe-or-provision phase, `render_html` runs the rest
of the pipeline, prefixing the trace with the probe (and provision) events. -/
theorem render_html_core_reaches (info : LangInfo) (env : Env) (code : String)
    (hok : check_for_parser_core info.soname env = .ok ()
      ∨ (generate_parser_core info env).fst = .ok ()) :
    render_html_core info env code
      = ((render_pipeline info env code).fst,
          Event.probe :: (render_pipeline info env code).snd)
    ∨ render_html_core info env code
      = ((render_pipeline info env code).fst,
          Event.probe :: Event.provision :: (render_pipeline info env code).snd) := by
  unfold render_html_core
  rcases hc : check_for_parser_core info.soname env with er | u
  · rcases hok with hok | hok
    · rw [hc] at hok
      simp at hok
    · rw [hok]
      right
      simp
  · left
    simp

/-- Claim C1, amended: when the registry record's extension query returns
none, `render_html` (given that the probe-or-provision phase did not already
fail for another reason) fails with `LanguageParserNotImplemented` — but only
after the loader work: the loader construction, config load, theme load,
highlight configuration and language discovery all appear in the trace of the
failing call, contrary to the claim's "before any loader work". -/
theorem C1_theorem (info : LangInfo) (env : Env) (code : String)
    (hext : info.ext = none)
    (hok : check_for_parser_core info.soname env = .ok ()
      ∨ (generate_parser_core info env).fst = .ok ()) :
    (render_html_core info env code).fst
        = .error (.rendering .LanguageParserNotImplemented)
    ∧ Event.loaderNew ∈ (render_html_core info env code).snd
    ∧ Event.configLoad ∈ (render_html_core info env code).snd
    ∧ Event.themeLoad ∈ (render_html_core info env code).snd
    ∧ Event.configureHighlights ∈ (render_html_core info env code).snd
    ∧ Event.findAllLanguages ∈ (render_html_core info env code).snd := by
  have hp := pipeline_none info env code hext
  rcases render_html_core_reaches info env code hok with hr | hr <;>
    rw [hr, hp] <;> exact ⟨rfl, by simp [loader_events], by simp [loader_events],
      by simp [loader_events], by simp [loader_events], by simp [loader_events]⟩

/-- Counterexample for claim C1: a registry record with no extension (the
enum is non_exhaustive; no current variant inhabits this case) on which
`render_html` does fail with `LanguageParserNotImplemented`, but whose trace
contains the loader construction and the language discovery, refuting "fails
before any loader work". -/
theorem C1_counterexample :
    (render_html_core c1_info env_all_ok "fn").fst
        = .error (.rendering .LanguageParserNotImplemented)
    ∧ Event.loaderNew ∈ (render_html_core c1_info env_all_ok "fn").snd
    ∧ Event.findAllLanguages ∈ (render_html_core c1_info env_all_ok "fn").snd := by
  decide

/-- Witness for C1 (amended) at the same concrete no-extension record. -/
theorem C1_witness :
    (render_html_core c1_info env_all_ok "fn").fst
        = .error (.rendering .LanguageParserNotImplemented)
    ∧ Event.configLoad ∈ (render_html_core c1_info env_all_ok "fn").snd :=
  ⟨(C1_theorem c1_info env_all_ok "fn" rfl (Or.inr (by decide))).1,
   (C1_theorem c1_info env_all_ok "fn" rfl (Or.inr (by decide))).2.2.1⟩

/-- Claim C3: the extension query for Javascript returns ".rs", the same
extension as Rust, and consequently `render_html` for Javascript (once past
the probe-or-provision phase) performs its grammar-configuration lookup keyed
by ".rs" — and by no other extension. -/
theorem C3_theorem (env : Env) (code : String)
    (hok : checkForParser env .Javascript = .ok ()
      ∨ (generateParser env .Javascript).fst = .ok ()) :
    TargetLanguage.extension .Javascript = some ".rs"
    ∧ TargetLanguage.extension .Javascript = TargetLanguage.extension .Rust
    ∧ Event.langConfigFor ".rs" ∈ (render_html env code .Javascript).snd
    ∧ ∀ s, Event.langConfigFor s ∈ (render_html env code .Javascript).snd → s = ".rs" := by
  have hp := pipeline_trace_shape (TargetLanguage.info .Javascript) env code ".rs" rfl
  have hr := render_html_core_reaches (TargetLanguage.info .Javascript) env code hok
  have key : Event.langConfigFor ".rs" ∈ (render_html env code .Javascript).snd
      ∧ ∀ s, Event.langConfigFor s ∈ (render_html env code .Javascript).snd → s = ".rs" := by
    unfold render_html
    rcases hr with hr | hr <;> rcases hp with hp | hp <;> rw [hr, hp] <;>
      refine ⟨by simp [loader_events], ?_⟩ <;>
      · intro s hs
        simpa [loader_events] using hs
  exact ⟨rfl, rfl, key.1, key.2⟩

/-- Witness for C3: with an empty cache and all collaborators succeeding,
rendering Javascript records a grammar lookup keyed by ".rs". -/
theorem C3_witness :
    TargetLanguage.extension .Javascript = some ".rs"
    ∧ Event.langConfigFor ".rs" ∈ (render_html env_all_ok "let x = 1;" .Javascript).snd :=
  ⟨(C3_theorem env_all_ok "let x = 1;" (Or.inr (by decide))).1,
   (C3_theorem env_all_ok "let x = 1;" (Or.inr (by decide))).2.2.1⟩

/-- Claim C5: for every supported language, when the probe-or-provision phase
succeeds, a grammar matches, the tokenizer and renderer succeed, and — per
the external renderer's contract — the renderer emits no output lines for the
empty source, `render_html` on the empty source string returns exactly
"<table>\n</table>\n", with zero data rows. -/
theorem C5_theorem (lang : TargetLanguage) (env : Env)
    (hok : checkForParser env lang = .ok () ∨ (generateParser env lang).fst = .ok ())
    (hcfg : env.langConfig = .ok (some ()))
    (hhl : env.highlightOk = true) (hrd : env.renderOk = true)
    (hempty : env.rendererLines "" = []) :
    (render_html env "" lang).fst = .ok "<table>\n</table>\n" := by
  obtain ⟨e, he⟩ : ∃ e, (TargetLanguage.info lang).ext = some e := by
    cases lang <;> exact ⟨_, rfl⟩
  have hsh : string_html env "" = .ok "<table>\n</table>\n" := by
    unfold string_html
    rw [hhl, hrd, hempty]
    decide
  have hp : (render_pipeline lang.info env "").fst = .ok "<table>\n</table>\n" := by
    simp [render_pipeline, he, hcfg, hsh]
  unfold render_html
  rcases render_html_core_reaches lang.info env "" hok with hr | hr <;> rw [hr] <;> exact hp

/-- Witness for C5: a warm cache for Python, empty source. -/
theorem C5_witness :
    (render_html env_warm "" .Python).fst = .ok "<table>\n</table>\n" :=
  C5_theorem .Python env_warm (Or.inl (by decide)) rfl rfl rfl rfl

/-- The post-provision part of the pipeline never records a provisioning
attempt. -/
theorem provision_not_in_pipeline (info : LangInfo) (env : Env) (code : String) :
    Event.provision ∉ (render_pipeline info env code).snd := by
  rcases he : info.ext with _ | e
  · rw [pipeline_none info env code he]
    simp [loader_events]
  · rcases pipeline_trace_shape info env code e he with hp | hp <;> rw [hp] <;>
      simp [loader_events]

/-- A trace without the provision event counts zero provisioning attempts. -/
theorem count_provision_zero (tr : List Event) (h : Event.provision ∉ tr) :
    count_provision tr = 0 := by
  induction tr with
  | nil => rfl
  | cons a tr ih =>
      simp only [List.mem_cons, not_or] at h
      have ha : a ≠ Event.provision := fun hh => h.1 hh.symm
      simp [count_provision, ha, ih h.2]

/-- Claim C9: in every `render_html` call whose cache probe fails, exactly one
provisioning attempt is recorded (never a retry loop), and if that single
attempt fails its error is returned to the caller immediately — the call ends
with the trace [probe, provision] and the attempt's error. -/
theorem C9_theorem (lang : TargetLanguage) (env : Env) (code : String) (err : RenderError)
    (h : checkForParser env lang = .error err) :
    count_provision (render_html env code lang).snd = 1
    ∧ ∀ e2, (generateParser env lang).fst = .error e2 →
        (render_html env code lang).fst = .error e2
        ∧ (render_html env code lang).snd = [Event.probe, Event.provision] := by
  unfold checkForParser at h
  unfold render_html render_html_core generateParser
  rw [h]
  rcases hg : (generate_parser_core lang.info env).fst with e2 | u
  · refine ⟨by simp [count_provision], ?_⟩
    intro e3 hg3
    injection hg3 with hh
    subst hh
    exact ⟨by simp, by simp⟩
  · have hnp := provision_not_in_pipeline lang.info env code
    refine ⟨?_, ?_⟩
    · simp [count_provision, count_provision_zero _ hnp]
    · intro e3 hg3
      exact absurd hg3 (by simp)

/-- Witness for C9: with an unresolvable home directory both the probe and
the single provisioning attempt fail, and the failure is returned at once. -/
theorem C9_witness :
    count_provision (render_html env_cold "x" .Rust).snd = 1
    ∧ (render_html env_cold "x" .Rust).fst
        = .error (.rendering .SharedLibDoesntExist)
    ∧ (render_html env_cold "x" .Rust).snd = [Event.probe, Event.provision] :=
  ⟨(C9_theorem .Rust env_cold "x" (.rendering .SharedLibDoesntExist) (by decide)).1,
   ((C9_theorem .Rust env_cold "x" (.rendering .SharedLibDoesntExist) (by decide)).2
      (.rendering .SharedLibDoesntExist) (by decide)).1,
   ((C9_theorem .Rust env_cold "x" (.rendering .SharedLibDoesntExist) (by decide)).2
      (.rendering .SharedLibDoesntExist) (by decide)).2⟩

/-- Claim C10: `render_html` is a pure function of the source, the language
and the results returned by the external collaborators, so two invocations in
which the loader, config, theme, filesystem, git client, toolchain and
tokenizer/renderer return the same results produce identical output —
byte-identical HTML on success. -/
theorem C10_theorem (code : String) (lang : TargetLanguage) (env1 env2 : Env)
    (h1 : env1.homeDir = env2.homeDir) (h2 : env1.currentDir = env2.currentDir)
    (h3 : env1.fs = env2.fs) (h4 : env1.cloneOk = env2.cloneOk)
    (h5 : env1.generateOk = env2.generateOk) (h6 : env1.languagesOk = env2.languagesOk)
    (h7 : env1.compileOk = env2.compileOk) (h8 : env1.langConfig = env2.langConfig)
    (h9 : env1.highlightOk = env2.highlightOk) (h10 : env1.renderOk = env2.renderOk)
    (h11 : env1.rendererLines = env2.rendererLines) :
    render_html env1 code lang = render_html env2 code lang := by
  have he : env1 = env2 := by
    cases env1
    cases env2
    simp_all
  rw [he]

/-- Witness for C10: two runs against the same warm-cache collaborator
results give the same output. -/
theorem C10_witness :
    render_html env_warm "fn main" .Rust = render_html env_warm "fn main" .Rust :=
  C10_theorem "fn main" .Rust env_warm env_warm rfl rfl rfl rfl rfl rfl rfl rfl rfl rfl rfl
